import Mathlib

/-!
Verification of the serverless-kubeless deployment and log-filtering engines.

The definitions below are a shallow embedding of the two source files
`src/deploy/kubelessDeploy.js` and `src/logs/kubelessLogs.js`.  JavaScript
values are modelled as follows: strings are `String`, optional values
(`undefined`/missing) are `Option`, objects with a fixed shape are
structures, `moment` instants are `Int` (millisecond values, only compared),
and fallible code returns `Except`.  Lodash helpers that the code applies to
optional strings (`_.isEmpty`, truthiness, `||`) are modelled explicitly.
-/

/-- JavaScript truthiness of an optional string: `undefined`, `null` and the
empty string are falsy, every other string is truthy. -/
def jsTruthyStr (o : Option String) : Bool :=
  match o with
  | none => false
  | some s => !s.isEmpty

/-- `a || b` on optional strings, as JavaScript evaluates it. -/
def jsOrStr (a b : Option String) : Option String :=
  if jsTruthyStr a then a else b

/-- Lodash `_.isEmpty` applied to an optional string: true for
`undefined`/`null` and for the empty string. -/
def lodashIsEmptyStr (o : Option String) : Bool :=
  match o with
  | none => true
  | some s => s.isEmpty

/-- `memory.toString().match(/\d+$/)`: the regex matches exactly when the
string ends in a digit (kubelessDeploy.js line 77). -/
def endsWithDigits (s : String) : Bool :=
  match s.data.getLast? with
  | some c => c.isDigit
  | none => false

/-- Memory normalization of kubelessDeploy.js lines 77-79: when the value
matches `/\d+$/` the default unit `Mi` is appended, otherwise the value is
passed through unchanged. -/
def normalizeMemory (memory : String) : String :=
  if endsWithDigits memory then memory ++ "Mi" else memory

/-- `container.resources` block: the same memory value on limit and request
(kubelessDeploy.js lines 80-83, flattening `{limits:{memory},requests:{memory}}`). -/
structure MemResources where
  limitsMemory : String
  requestsMemory : String
deriving DecidableEq, Repr

/-- The single container override emitted by `getFunctionDescription`
(kubelessDeploy.js lines 66-84). -/
structure Container where
  name : String
  env : Option (List (String × String))
  resources : Option MemResources
deriving DecidableEq, Repr

/-- The `spec` payload of a Function resource (kubelessDeploy.js lines 50-55,
85-87, 89-99).  `template` flattens `spec.template.spec.containers = [c]`
to its single container. -/
structure FuncSpec where
  deps : String
  function : String
  handler : String
  runtime : String
  template : Option Container
  type : String
  topic : Option String
deriving DecidableEq, Repr

/-- Resource metadata (kubelessDeploy.js lines 46-49, 57-64). -/
structure FuncMetadata where
  name : String
  nspace : String
  annotations : Option (List (String × String))
  labels : Option (List (String × String))
deriving DecidableEq, Repr

/-- The declarative Function resource document built by
`getFunctionDescription`. -/
structure FunctionResource where
  apiVersion : String
  kind : String
  metadata : FuncMetadata
  spec : FuncSpec
deriving DecidableEq, Repr

/-- Errors thrown while building the resource document; both `throw` sites
of `getFunctionDescription` are the spec's `UnsupportedEventError`. -/
inductive BuildError where
  | unsupportedEvent (msg : String)
deriving DecidableEq, Repr

/-- Shallow embedding of `getFunctionDescription`
(kubelessDeploy.js lines 29-104).  The `funcs` object is assembled and the
final `switch (eventType)` either fixes the event type fields or throws. -/
def getFunctionDescription (funcName nspace runtime : String)
    (deps : Option String) (funcContent handler : String)
    (desc : Option String) (labels : Option (List (String × String)))
    (env : Option (List (String × String))) (memory : Option String)
    (eventType : String) (eventTrigger : Option String) :
    Except BuildError FunctionResource :=
  let annotations : Option (List (String × String)) :=
    if jsTruthyStr desc then
      some [("kubeless.serverless.com/description", desc.getD "")]
    else none
  let container : Container :=
    { name := funcName
      env := env
      resources :=
        if jsTruthyStr memory then
          some { limitsMemory := normalizeMemory (memory.getD "")
                 requestsMemory := normalizeMemory (memory.getD "") }
        else none }
  let template : Option Container :=
    if env.isSome || jsTruthyStr memory then some container else none
  let mkDoc : String → Option String → FunctionResource := fun tp topic =>
    { apiVersion := "k8s.io/v1"
      kind := "Function"
      metadata :=
        { name := funcName
          nspace := nspace
          annotations := annotations
          labels := labels }
      spec :=
        { deps := deps.getD ""
          function := funcContent
          handler := handler
          runtime := runtime
          template := template
          type := tp
          topic := topic } }
  if eventType = "http" then
    .ok (mkDoc "HTTP" none)
  else if eventType = "trigger" then
    if lodashIsEmptyStr eventTrigger then
      .error (.unsupportedEvent "You should specify a topic for the trigger event")
    else
      .ok (mkDoc "PubSub" eventTrigger)
  else
    .error (.unsupportedEvent ("Event type " ++ eventType ++ " is not supported"))

/-- Status of a pod's (single) container: `pod.status.containerStatuses[0]`
(kubelessDeploy.js lines 261-268). -/
structure ContainerStatus where
  ready : Bool
  restartCount : Nat
deriving DecidableEq, Repr

/-- One pod observation as consumed by `waitForDeployment`: the `function`
label, the creation instant, and the optional container status array
(`pod.status.containerStatuses` may be absent), flattened to its first
element. -/
structure Pod where
  labelFunction : String
  creationTimestamp : Int
  containerStatuses : Option ContainerStatus
deriving DecidableEq, Repr

/-- Mutable counters of the polling loop (kubelessDeploy.js lines 224-225),
together with `process.exitCode` (line 266), 0 meaning unset. -/
structure PollerState where
  retries : Nat
  successfulCount : Nat
  exitCode : Nat
deriving DecidableEq, Repr

/-- Classification of one tick of the polling loop: `polling` continues,
the other three are terminal (`clearInterval`). -/
inductive PollOutcome where
  | polling
  | givenUp
  | stable
  | failed
deriving DecidableEq, Repr

/-- Pod filter of kubelessDeploy.js lines 245-252: pods whose `function`
label matches and whose creation timestamp is at or after the moment the
deployment request was submitted. -/
def functionPods (funcName : String) (requestMoment : Int) (pods : List Pod) :
    List Pod :=
  pods.filter fun p =>
    p.labelFunction == funcName && decide (requestMoment ≤ p.creationTimestamp)

/-- A pod that triggers the failure branch of kubelessDeploy.js lines
264-268: container status present, not ready, restart count above 2. -/
def restartExceeded (p : Pod) : Bool :=
  match p.containerStatuses with
  | some cs => !cs.ready && decide (cs.restartCount > 2)
  | none => false

/-- A pod counted as running (kubelessDeploy.js lines 262-263): container
status present and ready. -/
def podReady (p : Pod) : Bool :=
  match p.containerStatuses with
  | some cs => cs.ready
  | none => false

/-- One tick of `waitForDeployment`'s interval (kubelessDeploy.js lines
227-298), as a function of the pod list returned by `core.pods.get`.
Mirrors the source exactly: the give-up check `retries > 3` runs at tick
start; an empty filtered set increments `retries`; a pod with
`restartCount > 2` and a non-ready container clears the interval and sets
`process.exitCode`; a fully ready set increments `successfulCount`,
declaring success when it reaches 2; otherwise the counter is reset to 0
**only under the `verbose` option** (lines 281-282).  A failure tick cannot
also satisfy the fully-ready check, since the failing pod is in the
filtered set but not counted as running. -/
def pollerTick (verbose : Bool) (funcName : String) (requestMoment : Int)
    (st : PollerState) (pods : List Pod) : PollerState × PollOutcome :=
  if st.retries > 3 then
    (st, .givenUp)
  else
    let fp := functionPods funcName requestMoment pods
    if fp.isEmpty then
      ({ st with retries := st.retries + 1 }, .polling)
    else if fp.any restartExceeded then
      ({ st with exitCode := if st.exitCode = 0 then 1 else st.exitCode }, .failed)
    else if (fp.filter podReady).length = fp.length then
      let st' := { st with successfulCount := st.successfulCount + 1 }
      if st'.successfulCount = 2 then (st', .stable) else (st', .polling)
    else if verbose then
      ({ st with successfulCount := 0 }, .polling)
    else
      (st, .polling)

/-- Runs the polling loop over a finite sequence of tick observations,
stopping at the first terminal tick; `polling` as the final outcome means
the observation sequence was exhausted with the loop still live. -/
def runPoller (verbose : Bool) (funcName : String) (requestMoment : Int) :
    PollerState → List (List Pod) → PollerState × PollOutcome
  | st, [] => (st, .polling)
  | st, pods :: rest =>
    match pollerTick verbose funcName requestMoment st pods with
    | (st', .polling) => runPoller verbose funcName requestMoment st' rest
    | (st', o) => (st', o)

/-- Cluster API calls issued while reconciling one function × event pair,
in order: the functions list (`thirdPartyResources.ns.functions.get`), the
create POST, the update PUT, the start of `waitForDeployment`, and the
ingress POST. -/
inductive ApiAction where
  | listCall
  | createCall
  | updateCall
  | pollerStart
  | ingressCall
deriving DecidableEq, Repr

/-- Result the cluster returns for a submission: success, or an error with
a numeric code and message (`err.code`, `err.message`); the create path
special-cases `err.code === 409`. -/
inductive ApiResult where
  | ok
  | err (code : Int) (msg : String)
deriving DecidableEq, Repr

/-- Observable outcome of reconciling one function × event pair: the
ordered trace of cluster calls, the errors pushed onto the batch `errors`
list, the CLI log lines relevant to reconciliation, the value the
deployment promise chain carries into the ingress step (`none` models the
`undefined` flowing out of a caught rejection), and the poller's eventual
outcome when a poller was started. -/
structure EventResult where
  trace : List ApiAction
  errors : List String
  logs : List String
  deployed : Option Bool
  pollerOutcome : Option PollOutcome
deriving DecidableEq, Repr

/-- `existingFunction` of kubelessDeploy.js lines 440-449: some listed item
has the same metadata name. -/
def existingFunctionIn (funcs : FunctionResource)
    (existing : List FunctionResource) : Bool :=
  existing.any fun item => item.metadata.name == funcs.metadata.name

/-- `existingSameFunction` of kubelessDeploy.js lines 441-449: some listed
item has the same metadata name and a deeply equal spec payload
(`_.isEqual(item.spec, funcs.spec)`). -/
def existingSameFunctionIn (funcs : FunctionResource)
    (existing : List FunctionResource) : Bool :=
  existing.any fun item =>
    item.metadata.name == funcs.metadata.name && item.spec == funcs.spec

/-- Shallow embedding of `addIngressRuleIfNecessary` (kubelessDeploy.js
lines 353-391), reduced to its observable effects: which calls are issued
and which errors are pushed.  The ingress rule is posted exactly when the
event is `http` and either a non-empty, non-root path or a non-empty
hostname is supplied; the built `getIngressDescription` document itself is
not inspected by any claim and is elided. -/
def addIngressRuleIfNecessary (funcName eventType : String)
    (eventPath eventHostname : Option String) (ingressResult : ApiResult) :
    List ApiAction × List String :=
  if eventType = "http" &&
      ((!lodashIsEmptyStr eventPath && eventPath.getD "" != "/") ||
        !lodashIsEmptyStr eventHostname) then
    match ingressResult with
    | .ok => ([.ingressCall], [])
    | .err _ msg =>
      ([.ingressCall],
        ["Unable to deploy the function " ++ funcName ++
          " in the given path. Received: " ++ msg])
  else
    ([], [])

/-- Shallow embedding of the per-(function × event) reconciliation chain of
`deployFunction` (kubelessDeploy.js lines 435-506) together with
`deployFunctionAndWait` (lines 301-333) and `redeployFunctionAndWait`
(lines 335-351).  `createResult`/`updateResult`/`ingressResult` are the
cluster's responses to the respective submissions; `providerHostname` and
`eventHostname` model `provider.hostname || event[eventType].hostname`;
`ticks` is the sequence of pod lists the fire-and-forget poller will
observe.  The skip branch resolves `false` without any submission; the
update branch sets `redeployed`, so the ingress step is skipped; the create
branch resolves `false` on a 409 conflict (logging the `--force`
instruction, pushing no error), rejects on any other error (the rejection
is caught and pushed onto `errors`, leaving the chain value `undefined`),
and on success starts the poller, resolves `true`, and proceeds to the
ingress step. -/
def deployEvent (funcs : FunctionResource) (existing : List FunctionResource)
    (force : Bool) (createResult updateResult ingressResult : ApiResult)
    (eventType : String) (eventPath providerHostname eventHostname : Option String)
    (verbose : Bool) (requestMoment : Int) (ticks : List (List Pod)) :
    EventResult :=
  let name := funcs.metadata.name
  if existingSameFunctionIn funcs existing then
    { trace := [.listCall]
      errors := []
      logs := ["Function " ++ name ++ " has not changed. Skipping deployment"]
      deployed := some false
      pollerOutcome := none }
  else if existingFunctionIn funcs existing && force then
    match updateResult with
    | .ok =>
      { trace := [.listCall, .updateCall, .pollerStart]
        errors := []
        logs := []
        deployed := some true
        pollerOutcome :=
          some (runPoller verbose name requestMoment ⟨0, 0, 0⟩ ticks).2 }
    | .err code msg =>
      { trace := [.listCall, .updateCall]
        errors :=
          ["Unable to update the function " ++ name ++ ". Received:\n" ++
            "  Code: " ++ toString code ++ "\n  Message: " ++ msg]
        logs := []
        deployed := none
        pollerOutcome := none }
  else
    match createResult with
    | .ok =>
      let ing := addIngressRuleIfNecessary name eventType eventPath
        (jsOrStr providerHostname eventHostname) ingressResult
      { trace := [.listCall, .createCall, .pollerStart] ++ ing.1
        errors := ing.2
        logs := ["Deploying function " ++ name ++ "..."]
        deployed := some true
        pollerOutcome :=
          some (runPoller verbose name requestMoment ⟨0, 0, 0⟩ ticks).2 }
    | .err code msg =>
      if code = 409 then
        { trace := [.listCall, .createCall]
          errors := []
          logs :=
            ["Deploying function " ++ name ++ "...",
              "The function " ++ name ++ " already exists. " ++
                "Redeploy it usign --force or executing " ++
                "\"sls deploy function -f " ++ name ++ "\"."]
          deployed := some false
          pollerOutcome := none }
      else
        { trace := [.listCall, .createCall]
          errors :=
            ["Unable to deploy the function " ++ name ++ ". Received:\n" ++
              "  Code: " ++ toString code ++ "\n  Message: " ++ msg]
          logs := ["Deploying function " ++ name ++ "..."]
          deployed := none
          pollerOutcome := none }

/-- One event descriptor of a function definition: the single key of the
event object (`_.keys(event)[0]`), the `path`/`hostname` of its sub-object,
and `event.trigger` for PubSub topics. -/
structure Event where
  key : String
  path : Option String
  hostname : Option String
  trigger : Option String
deriving DecidableEq, Repr

/-- The default event substituted for an absent or empty events list
(kubelessDeploy.js lines 416-418): `[{ http: { path: '/' } }]`. -/
def defaultHttpEvent : Event :=
  { key := "http", path := some "/", hostname := none, trigger := none }

/-- `!_.isEmpty(description.events) ? description.events : [default]`
(kubelessDeploy.js lines 416-418): an absent or empty events list is
replaced by the single default HTTP event. -/
def effectiveEvents (events : Option (List Event)) : List Event :=
  match events with
  | none => [defaultHttpEvent]
  | some [] => [defaultHttpEvent]
  | some es => es

/-- JavaScript `Array.prototype.slice(b)` restricted to a single argument:
a negative start counts from the end (clamped at 0), a non-negative start
drops that many elements. -/
def jsSliceFrom (b : Int) (l : List String) : List String :=
  if b < 0 then l.drop (max (l.length + b) 0).toNat else l.drop b.toNat

/-- `_.compact(logs.split('\n'))` (kubelessLogs.js line 73): split on line
breaks and drop the falsy (empty) entries. -/
def splitCompact (logs : String) : List String :=
  (logs.splitOn "\n").filter fun e => !e.isEmpty

/-- Count window (kubelessLogs.js lines 74-76):
`logEntries.slice(logEntries.length - opts.count)`, guarded by JavaScript
truthiness of `opts.count` (0 is falsy and disables the filter). -/
def countStage (count : Option Nat) (entries : List String) : List String :=
  match count with
  | none => entries
  | some c =>
    if c = 0 then entries
    else jsSliceFrom ((entries.length : Int) - (c : Int)) entries

/-- Pattern window (kubelessLogs.js lines 77-79): keep entries matching the
pattern.  The regex engine behind `entry.match(opts.filter)` is external and
is abstracted as the `matchesPat` parameter; the empty-string pattern is
falsy and disables the filter. -/
def patternStage (matchesPat : String → String → Bool)
    (filtOpt : Option String) (entries : List String) : List String :=
  match filtOpt with
  | none => entries
  | some pat =>
    if pat.isEmpty then entries
    else entries.filter fun e => matchesPat e pat

/-- The per-entry predicate of kubelessLogs.js lines 91-100: an entry passes
when its embedded timestamp is at or after the resolved start instant, and
fails when no timestamp is embedded.  The timestamp regex and `moment`
parsing are external and abstracted as the `extract` parameter. -/
def timeOk (extract : String → Option Int) (startMoment : Int)
    (e : String) : Bool :=
  match extract e with
  | some t => decide (startMoment ≤ t)
  | none => false

/-- `_.findIndex` + `slice(logIndex)` with the `[]` fallback of
kubelessLogs.js lines 91-106, fused into one recursion: drop entries until
the first one satisfying `p`, returning `[]` when none does. -/
def dropUntilTime (p : String → Bool) : List String → List String
  | [] => []
  | e :: rest => if p e then e :: rest else dropUntilTime p rest

/-- Time window (kubelessLogs.js lines 80-107).  The resolution of
`opts.startTime` (relative offsets via `moment().subtract`, absolute
timestamps via `moment(...)`, lines 81-90) happens before any entry is
inspected and is abstracted to the resolved instant `startMoment`. -/
def timeStage (extract : String → Option Int) (startMoment : Option Int)
    (entries : List String) : List String :=
  match startMoment with
  | none => entries
  | some sm => dropUntilTime (timeOk extract sm) entries

/-- The three filter options of `filterLogs` (kubelessLogs.js lines 68-72),
with `startTime` already resolved to an instant. -/
structure LogOpts where
  startTime : Option Int
  count : Option Nat
  filter : Option String
deriving DecidableEq, Repr

/-- Shallow embedding of `filterLogs` (kubelessLogs.js lines 67-109): split
and compact, then the count window, then the pattern window, then the time
window, then re-join with line breaks. -/
def filterLogs (extract : String → Option Int)
    (matchesPat : String → String → Bool) (logs : String)
    (opts : LogOpts) : String :=
  "\n".intercalate
    (timeStage extract opts.startTime
      (patternStage matchesPat opts.filter
        (countStage opts.count (splitCompact logs))))

/-- Modelled from the spec's words (refinement target for the round-trip
property): the input text unchanged except for the removal of empty lines. -/
def specRemoveBlankLines (logs : String) : String :=
  "\n".intercalate ((logs.splitOn "\n").filter fun l => l ≠ "")

/-- The spec claim's notion of a purely numeric memory value: non-empty and
made of digits only, with no unit suffix. -/
def specPurelyNumeric (s : String) : Prop :=
  s ≠ "" ∧ ∀ c ∈ s.data, c.isDigit

instance : DecidablePred specPurelyNumeric := fun s => by
  unfold specPurelyNumeric; infer_instance

/-- C1: building the resource document maps the event type exhaustively:
`http` yields spec type `HTTP`; `trigger` with a non-empty topic yields
`PubSub` with the topic preserved; `trigger` with an empty or missing topic
fails with the unsupported-event error; any other event key fails with the
unsupported-event error. -/
theorem getFunctionDescription_event_mapping
    (funcName nspace runtime : String) (deps : Option String)
    (funcContent handler : String) (desc : Option String)
    (labels env : Option (List (String × String))) (memory : Option String)
    (eventType : String) (eventTrigger : Option String) :
    (eventType = "http" →
      ∃ doc, getFunctionDescription funcName nspace runtime deps funcContent
          handler desc labels env memory eventType eventTrigger = .ok doc ∧
        doc.spec.type = "HTTP") ∧
    (eventType = "trigger" → lodashIsEmptyStr eventTrigger = false →
      ∃ doc, getFunctionDescription funcName nspace runtime deps funcContent
          handler desc labels env memory eventType eventTrigger = .ok doc ∧
        doc.spec.type = "PubSub" ∧ doc.spec.topic = eventTrigger) ∧
    (eventType = "trigger" → lodashIsEmptyStr eventTrigger = true →
      ∃ msg, getFunctionDescription funcName nspace runtime deps funcContent
          handler desc labels env memory eventType eventTrigger =
        .error (.unsupportedEvent msg)) ∧
    (eventType ≠ "http" → eventType ≠ "trigger" →
      ∃ msg, getFunctionDescription funcName nspace runtime deps funcContent
          handler desc labels env memory eventType eventTrigger =
        .error (.unsupportedEvent msg)) := by
  refine ⟨?_, ?_, ?_, ?_⟩
  · rintro rfl
    exact ⟨_, rfl, rfl⟩
  · rintro rfl h
    simp only [getFunctionDescription, h, Bool.false_eq_true, if_false]
    exact ⟨_, rfl, rfl, rfl⟩
  · rintro rfl h
    simp only [getFunctionDescription, h, if_true]
    exact ⟨_, rfl⟩
  · intro h1 h2
    simp only [getFunctionDescription, if_neg h1, if_neg h2]
    exact ⟨_, rfl⟩

/-- Witness for C1 at the four concrete event shapes. -/
theorem getFunctionDescription_event_mapping_witness :
    (∃ doc, getFunctionDescription "hello" "default" "python2.7" none "code"
        "handler.hello" none none none none "http" none = .ok doc ∧
      doc.spec.type = "HTTP") ∧
    (∃ doc, getFunctionDescription "hello" "default" "python2.7" none "code"
        "handler.hello" none none none none "trigger" (some "topic") =
        .ok doc ∧
      doc.spec.type = "PubSub" ∧ doc.spec.topic = some "topic") ∧
    (∃ msg, getFunctionDescription "hello" "default" "python2.7" none "code"
        "handler.hello" none none none none "trigger" (some "") =
      .error (.unsupportedEvent msg)) ∧
    (∃ msg, getFunctionDescription "hello" "default" "python2.7" none "code"
        "handler.hello" none none none none "kafka" none =
      .error (.unsupportedEvent msg)) :=
  ⟨(getFunctionDescription_event_mapping "hello" "default" "python2.7" none
      "code" "handler.hello" none none none none "http" none).1 rfl,
    (getFunctionDescription_event_mapping "hello" "default" "python2.7" none
      "code" "handler.hello" none none none none "trigger" (some "topic")).2.1
      rfl (by decide),
    (getFunctionDescription_event_mapping "hello" "default" "python2.7" none
      "code" "handler.hello" none none none none "trigger" (some "")).2.2.1
      rfl (by decide),
    (getFunctionDescription_event_mapping "hello" "default" "python2.7" none
      "code" "handler.hello" none none none none "kafka" none).2.2.2
      (by decide) (by decide)⟩

/-- C6 counterexample: the claim says a value that is not purely numeric
passes through unchanged, but the source tests `/\d+$/` (ends in a digit),
so the non-numeric value `"Gi5"` still gets `Mi` appended in the built
document's request and limit. -/
theorem memory_normalization_counterexample :
    ¬ specPurelyNumeric "Gi5" ∧
    (getFunctionDescription "hello" "default" "python2.7" none "code"
        "handler.hello" none none none (some "Gi5") "http" none).toOption.map
      (fun d => d.spec.template.map Container.resources) =
      some (some (some { limitsMemory := "Gi5Mi", requestsMemory := "Gi5Mi" })) ∧
    "Gi5Mi" ≠ "Gi5" :=
  ⟨by decide, rfl, by decide⟩

/-- C6 amended: for every memory value supplied (non-empty), the built
document applies the same normalized value to both the memory request and
the memory limit, where normalization appends the default unit `Mi` exactly
when the value's string form ends in a digit (the source's `/\d+$/` test)
and passes the value through unchanged otherwise.  In particular a purely
numeric value gets `Mi` appended. -/
theorem memory_normalization_amended
    (funcName nspace runtime : String) (deps : Option String)
    (funcContent handler : String) (desc : Option String)
    (labels env : Option (List (String × String))) (m : String)
    (eventType : String) (eventTrigger : Option String)
    (doc : FunctionResource) (hm : m.isEmpty = false)
    (hdoc : getFunctionDescription funcName nspace runtime deps funcContent
      handler desc labels env (some m) eventType eventTrigger = .ok doc) :
    (∃ c, doc.spec.template = some c ∧
      c.resources = some { limitsMemory := normalizeMemory m,
                           requestsMemory := normalizeMemory m }) ∧
    (endsWithDigits m = true → normalizeMemory m = m ++ "Mi") ∧
    (endsWithDigits m = false → normalizeMemory m = m) ∧
    (specPurelyNumeric m → normalizeMemory m = m ++ "Mi") := by
  have htr : jsTruthyStr (some m) = true := by simp [jsTruthyStr, hm]
  refine ⟨?_, ?_, ?_, ?_⟩
  · simp only [getFunctionDescription, htr, if_true, Bool.or_true] at hdoc
    split at hdoc
    · cases hdoc
      exact ⟨_, rfl, rfl⟩
    · split at hdoc
      · split at hdoc
        · cases hdoc
        · cases hdoc
          exact ⟨_, rfl, rfl⟩
      · cases hdoc
  · intro h; simp [normalizeMemory, h]
  · intro h; simp [normalizeMemory, h]
  · intro h
    have hd : endsWithDigits m = true := by
      rcases h with ⟨hne, hall⟩
      unfold endsWithDigits
      rcases hlast : m.data.getLast? with _ | c
      · exact absurd (String.ext (List.getLast?_eq_none_iff.mp hlast)) hne
      · simpa using hall c (List.mem_of_getLast?_eq_some hlast)
    simp [normalizeMemory, hd]

/-- Witness for C6 amended at memory value `"128"`. -/
theorem memory_normalization_amended_witness :
    (∃ c, ({ apiVersion := "k8s.io/v1"
             kind := "Function"
             metadata := { name := "hello"
                           nspace := "default"
                           annotations := none
                           labels := none }
             spec := { deps := ""
                       function := "code"
                       handler := "handler.hello"
                       runtime := "python2.7"
                       template := some { name := "hello"
                                          env := none
                                          resources :=
                                            some { limitsMemory := "128Mi"
                                                   requestsMemory := "128Mi" } }
                       type := "HTTP"
                       topic := none } } :
        FunctionResource).spec.template = some c ∧
      c.resources = some { limitsMemory := normalizeMemory "128",
                           requestsMemory := normalizeMemory "128" }) ∧
    (endsWithDigits "128" = true → normalizeMemory "128" = "128" ++ "Mi") ∧
    (endsWithDigits "128" = false → normalizeMemory "128" = "128") ∧
    (specPurelyNumeric "128" → normalizeMemory "128" = "128" ++ "Mi") :=
  memory_normalization_amended "hello" "default" "python2.7" none "code"
    "handler.hello" none none none "128" "http" none _ (by decide) rfl

/-- C2 failing input: with the `verbose` option off, the stability counter
is **not** reset on a tick where the ready count is not full (the reset of
kubelessDeploy.js line 282 is reachable only inside the
`else if (this.options.verbose)` branch), so the poller declares `Stable`
on the third tick of the sequence ready / not-ready / ready even though
full readiness never held on 2 consecutive ticks.  With `verbose` on, the
same sequence leaves the poller still polling with a freshly restarted
counter, as the claim demands. -/
theorem waitForDeployment_stability_reset_bug :
    runPoller false "hello" 0 ⟨0, 0, 0⟩
      [[⟨"hello", 0, some ⟨true, 0⟩⟩],
        [⟨"hello", 0, some ⟨false, 0⟩⟩],
        [⟨"hello", 0, some ⟨true, 0⟩⟩]] = (⟨0, 2, 0⟩, .stable) ∧
    runPoller false "hello" 0 ⟨0, 0, 0⟩
      [[⟨"hello", 0, some ⟨true, 0⟩⟩],
        [⟨"hello", 0, some ⟨false, 0⟩⟩]] = (⟨0, 1, 0⟩, .polling) ∧
    runPoller true "hello" 0 ⟨0, 0, 0⟩
      [[⟨"hello", 0, some ⟨true, 0⟩⟩],
        [⟨"hello", 0, some ⟨false, 0⟩⟩],
        [⟨"hello", 0, some ⟨true, 0⟩⟩]] = (⟨0, 1, 0⟩, .polling) := by
  decide

/-- C5 counterexample: the restart-count check of kubelessDeploy.js line
264 sits in the `else` of the readiness check, so a pod whose container is
ready with restart count 3 does **not** transition the poller to `Failed` —
the tick counts it as running and the run even reaches `Stable` with a zero
exit signal, contradicting "regardless of that pod's readiness". -/
theorem restart_count_ready_pod_counterexample :
    (pollerTick false "hello" 0 ⟨0, 0, 0⟩
      [⟨"hello", 0, some ⟨true, 3⟩⟩]).2 = .polling ∧
    (pollerTick false "hello" 0 ⟨0, 0, 0⟩
      [⟨"hello", 0, some ⟨true, 3⟩⟩]).1.exitCode = 0 ∧
    runPoller false "hello" 0 ⟨0, 0, 0⟩
      [[⟨"hello", 0, some ⟨true, 3⟩⟩],
        [⟨"hello", 0, some ⟨true, 3⟩⟩]] = (⟨0, 2, 0⟩, .stable) := by
  decide

/-- C5 amended: on every live tick (retry budget not yet exhausted), if
some observed pod of the function has a **non-ready** container with
restart count exceeding 2, the tick immediately ends in `Failed` with a
nonzero process exit signal, regardless of any other pod's readiness, and
the run stops at that tick. -/
theorem pollerTick_restart_failure (verbose : Bool) (funcName : String)
    (requestMoment : Int) (st : PollerState) (pods : List Pod)
    (rest : List (List Pod)) (hret : st.retries ≤ 3)
    (hbad : (functionPods funcName requestMoment pods).any restartExceeded =
      true) :
    (pollerTick verbose funcName requestMoment st pods).2 = .failed ∧
    (pollerTick verbose funcName requestMoment st pods).1.exitCode ≠ 0 ∧
    runPoller verbose funcName requestMoment st (pods :: rest) =
      pollerTick verbose funcName requestMoment st pods := by
  have hnotgt : ¬ st.retries > 3 := by omega
  have hmem : ∃ p, p ∈ functionPods funcName requestMoment pods := by
    rcases List.any_eq_true.mp hbad with ⟨p, hp, _⟩
    exact ⟨p, hp⟩
  have hne : (functionPods funcName requestMoment pods).isEmpty = false := by
    rcases hmem with ⟨p, hp⟩
    rcases h : (functionPods funcName requestMoment pods) with _ | ⟨a, l⟩
    · rw [h] at hp; cases hp
    · rfl
  have hstep : pollerTick verbose funcName requestMoment st pods =
      ({ st with exitCode := if st.exitCode = 0 then 1 else st.exitCode },
        .failed) := by
    unfold pollerTick
    rw [if_neg hnotgt]
    simp only [hne, Bool.false_eq_true, if_false, hbad, if_true]
  refine ⟨by rw [hstep], ?_, ?_⟩
  · rw [hstep]
    by_cases h0 : st.exitCode = 0 <;> simp [h0]
  · unfold runPoller
    rw [hstep]

/-- Witness for C5 amended: one not-ready pod with restart count 3 among an
otherwise ready pod set fails the run immediately. -/
theorem pollerTick_restart_failure_witness :
    (pollerTick false "hello" 0 ⟨0, 0, 0⟩
      [⟨"hello", 0, some ⟨true, 0⟩⟩, ⟨"hello", 0, some ⟨false, 3⟩⟩]).2 =
      .failed ∧
    (pollerTick false "hello" 0 ⟨0, 0, 0⟩
      [⟨"hello", 0, some ⟨true, 0⟩⟩, ⟨"hello", 0, some ⟨false, 3⟩⟩]).1.exitCode
      ≠ 0 ∧
    runPoller false "hello" 0 ⟨0, 0, 0⟩
      [[⟨"hello", 0, some ⟨true, 0⟩⟩, ⟨"hello", 0, some ⟨false, 3⟩⟩],
        [⟨"hello", 0, some ⟨true, 0⟩⟩]] =
      pollerTick false "hello" 0 ⟨0, 0, 0⟩
        [⟨"hello", 0, some ⟨true, 0⟩⟩, ⟨"hello", 0, some ⟨false, 3⟩⟩] :=
  pollerTick_restart_failure false "hello" 0 ⟨0, 0, 0⟩
    [⟨"hello", 0, some ⟨true, 0⟩⟩, ⟨"hello", 0, some ⟨false, 3⟩⟩]
    [[⟨"hello", 0, some ⟨true, 0⟩⟩]] (by decide) (by decide)

/-- The ingress step issues either no call or exactly the one ingress POST. -/
theorem addIngress_trace_cases (funcName eventType : String)
    (eventPath eventHostname : Option String) (ir : ApiResult) :
    (addIngressRuleIfNecessary funcName eventType eventPath eventHostname
      ir).1 = [] ∨
    (addIngressRuleIfNecessary funcName eventType eventPath eventHostname
      ir).1 = [.ingressCall] := by
  unfold addIngressRuleIfNecessary
  split
  · cases ir <;> simp
  · simp

/-- Turns the negation of a Bool equation into the complementary equation. -/
theorem bool_eq_false_of_not {b : Bool} (h : ¬ b = true) : b = false := by
  cases hb : b
  · rfl
  · exact absurd hb h

/-- C7: when an existing resource with the same name has a spec payload
deeply equal to the freshly built one, the outcome is a pure skip: only the
list call is issued (no create, update, poller start or ingress call), no
error is recorded, the "no change" line is logged, and the chain resolves
`false`. -/
theorem deploy_skip_unchanged (funcs : FunctionResource)
    (existing : List FunctionResource) (force : Bool)
    (createResult updateResult ingressResult : ApiResult)
    (eventType : String) (eventPath providerHostname eventHostname : Option String)
    (verbose : Bool) (requestMoment : Int) (ticks : List (List Pod))
    (hsame : existingSameFunctionIn funcs existing = true) :
    deployEvent funcs existing force createResult updateResult ingressResult
      eventType eventPath providerHostname eventHostname verbose
      requestMoment ticks =
      { trace := [.listCall]
        errors := []
        logs := ["Function " ++ funcs.metadata.name ++
          " has not changed. Skipping deployment"]
        deployed := some false
        pollerOutcome := none } := by
  simp [deployEvent, hsame]

/-- Witness for C7: resubmitting an identical document is a pure skip. -/
theorem deploy_skip_unchanged_witness :
    deployEvent
      ⟨"k8s.io/v1", "Function", ⟨"hello", "default", none, none⟩,
        ⟨"", "code", "handler.hello", "python2.7", none, "HTTP", none⟩⟩
      [⟨"k8s.io/v1", "Function", ⟨"hello", "default", none, none⟩,
        ⟨"", "code", "handler.hello", "python2.7", none, "HTTP", none⟩⟩]
      false .ok .ok .ok "http" (some "/") none none false 0 [] =
      { trace := [.listCall]
        errors := []
        logs := ["Function " ++ "hello" ++
          " has not changed. Skipping deployment"]
        deployed := some false
        pollerOutcome := none } :=
  deploy_skip_unchanged
    ⟨"k8s.io/v1", "Function", ⟨"hello", "default", none, none⟩,
      ⟨"", "code", "handler.hello", "python2.7", none, "HTTP", none⟩⟩
    [⟨"k8s.io/v1", "Function", ⟨"hello", "default", none, none⟩,
      ⟨"", "code", "handler.hello", "python2.7", none, "HTTP", none⟩⟩]
    false .ok .ok .ok "http" (some "/") none none false 0 [] (by decide)

/-- C3 counterexample: an existing resource with the same name and a
different spec, without the force flag, does **not** surface a failure —
the create is attempted, the cluster's 409 answer is logged with the
`--force` instruction, and the event resolves with an empty error list and
`deployed = false`. -/
theorem conflict_not_surfaced_counterexample :
    deployEvent
      ⟨"k8s.io/v1", "Function", ⟨"hello", "default", none, none⟩,
        ⟨"", "code-v2", "handler.hello", "python2.7", none, "HTTP", none⟩⟩
      [⟨"k8s.io/v1", "Function", ⟨"hello", "default", none, none⟩,
        ⟨"", "code-v1", "handler.hello", "python2.7", none, "HTTP", none⟩⟩]
      false (.err 409 "conflict") .ok .ok "http" (some "/") none none false
      0 [] =
      { trace := [.listCall, .createCall]
        errors := []
        logs := ["Deploying function hello...",
          "The function hello already exists. Redeploy it usign --force or executing \"sls deploy function -f hello\"."]
        deployed := some false
        pollerOutcome := none } := by
  decide

/-- C3 amended: when an existing resource with the same name has a
different spec payload and the force flag is not set, the reconciler still
attempts the create; the cluster's 409 conflict answer is then handled
non-fatally — a log line instructs the caller to use a forced redeploy, no
error is recorded for the batch, no poller is started and no ingress rule
is provisioned, and the event resolves `false`. -/
theorem deploy_conflict_nonfatal (funcs : FunctionResource)
    (existing : List FunctionResource)
    (updateResult ingressResult : ApiResult) (eventType : String)
    (eventPath providerHostname eventHostname : Option String)
    (verbose : Bool) (requestMoment : Int) (ticks : List (List Pod))
    (msg : String)
    (_hex : existingFunctionIn funcs existing = true)
    (hdiff : existingSameFunctionIn funcs existing = false) :
    deployEvent funcs existing false (.err 409 msg) updateResult
      ingressResult eventType eventPath providerHostname eventHostname
      verbose requestMoment ticks =
      { trace := [.listCall, .createCall]
        errors := []
        logs := ["Deploying function " ++ funcs.metadata.name ++ "...",
          "The function " ++ funcs.metadata.name ++ " already exists. " ++
            "Redeploy it usign --force or executing " ++
            "\"sls deploy function -f " ++ funcs.metadata.name ++ "\"."]
        deployed := some false
        pollerOutcome := none } := by
  simp [deployEvent, hdiff]

/-- Witness for C3 amended at a concrete changed function. -/
theorem deploy_conflict_nonfatal_witness :
    deployEvent
      ⟨"k8s.io/v1", "Function", ⟨"hello", "default", none, none⟩,
        ⟨"", "code-v2", "handler.hello", "python2.7", none, "HTTP", none⟩⟩
      [⟨"k8s.io/v1", "Function", ⟨"hello", "default", none, none⟩,
        ⟨"", "code-v1", "handler.hello", "python2.7", none, "HTTP", none⟩⟩]
      false (.err 409 "conflict") .ok .ok "http" (some "/") none none false
      0 [] =
      { trace := [.listCall, .createCall]
        errors := []
        logs := ["Deploying function " ++ "hello" ++ "...",
          "The function " ++ "hello" ++ " already exists. " ++
            "Redeploy it usign --force or executing " ++
            "\"sls deploy function -f " ++ "hello" ++ "\"."]
        deployed := some false
        pollerOutcome := none } :=
  deploy_conflict_nonfatal
    ⟨"k8s.io/v1", "Function", ⟨"hello", "default", none, none⟩,
      ⟨"", "code-v2", "handler.hello", "python2.7", none, "HTTP", none⟩⟩
    [⟨"k8s.io/v1", "Function", ⟨"hello", "default", none, none⟩,
      ⟨"", "code-v1", "handler.hello", "python2.7", none, "HTTP", none⟩⟩]
    .ok .ok "http" (some "/") none none false 0 [] "conflict" (by decide)
    (by decide)

/-- C4 counterexample: the poller is fire-and-forget
(kubelessDeploy.js lines 324-329 start `waitForDeployment` and resolve
immediately), so the ingress rule is provisioned even in a run whose poller
never signals success — here it gives up after observing only empty pod
lists — refuting "the Ingress Provisioner is invoked only after the
Readiness Poller has signalled success". -/
theorem ingress_before_poller_success_counterexample :
    deployEvent
      ⟨"k8s.io/v1", "Function", ⟨"hello", "default", none, none⟩,
        ⟨"", "code", "handler.hello", "python2.7", none, "HTTP", none⟩⟩
      [] false .ok .ok .ok "http" (some "/hello") none none false 0
      [[], [], [], [], []] =
      { trace := [.listCall, .createCall, .pollerStart, .ingressCall]
        errors := []
        logs := ["Deploying function hello..."]
        deployed := some true
        pollerOutcome := some .givenUp } := by
  decide

/-- C4 amended: the ingress call happens only on the Create path, strictly
after a successful create submission and after the readiness poller has
been **started** (the code does not wait for the poller's outcome); the
Update (forced redeploy) path never issues an ingress call. -/
theorem ingress_only_after_create_and_poller_start
    (funcs : FunctionResource) (existing : List FunctionResource)
    (force : Bool) (createResult updateResult ingressResult : ApiResult)
    (eventType : String)
    (eventPath providerHostname eventHostname : Option String)
    (verbose : Bool) (requestMoment : Int) (ticks : List (List Pod)) :
    (.ingressCall ∈ (deployEvent funcs existing force createResult
        updateResult ingressResult eventType eventPath providerHostname
        eventHostname verbose requestMoment ticks).trace →
      createResult = .ok ∧
      (deployEvent funcs existing force createResult updateResult
        ingressResult eventType eventPath providerHostname eventHostname
        verbose requestMoment ticks).trace =
        [.listCall, .createCall, .pollerStart, .ingressCall]) ∧
    (existingFunctionIn funcs existing = true →
      existingSameFunctionIn funcs existing = false → force = true →
      .ingressCall ∉ (deployEvent funcs existing force createResult
        updateResult ingressResult eventType eventPath providerHostname
        eventHostname verbose requestMoment ticks).trace) := by
  by_cases h1 : existingSameFunctionIn funcs existing = true
  · constructor
    · intro hmem
      exfalso
      simp [deployEvent, h1] at hmem
    · intro _ hdiff _
      rw [h1] at hdiff
      cases hdiff
  · have h1' := bool_eq_false_of_not h1
    by_cases h2 : (existingFunctionIn funcs existing && force) = true
    · constructor
      · intro hmem
        exfalso
        cases updateResult <;> simp [deployEvent, h1', h2] at hmem
      · intro _ _ _
        cases updateResult <;> simp [deployEvent, h1', h2]
    · have h2' := bool_eq_false_of_not h2
      constructor
      · intro hmem
        cases createResult with
        | err code msg =>
          exfalso
          by_cases hc : code = 409 <;>
            simp [deployEvent, h1', h2', hc] at hmem
        | ok =>
          refine ⟨rfl, ?_⟩
          simp only [deployEvent, h1', h2', Bool.false_eq_true,
            if_false] at hmem ⊢
          rcases addIngress_trace_cases funcs.metadata.name eventType
              eventPath (jsOrStr providerHostname eventHostname)
              ingressResult with h | h
          · rw [h] at hmem
            simp at hmem
          · rw [h] at hmem ⊢
            rfl
      · intro hx _ hf
        exfalso
        rw [hx, hf] at h2'
        simp at h2'

/-- Witness for C4 amended: a successful create with a non-root path issues
the ingress call right after the poller start, and a forced update path
issues none. -/
theorem ingress_only_after_create_and_poller_start_witness :
    ((ApiResult.ok = ApiResult.ok) ∧
      (deployEvent
        ⟨"k8s.io/v1", "Function", ⟨"hello", "default", none, none⟩,
          ⟨"", "code", "handler.hello", "python2.7", none, "HTTP", none⟩⟩
        [] false .ok .ok .ok "http" (some "/hello") none none false 0
        []).trace = [.listCall, .createCall, .pollerStart, .ingressCall]) ∧
    .ingressCall ∉ (deployEvent
      ⟨"k8s.io/v1", "Function", ⟨"hello", "default", none, none⟩,
        ⟨"", "code-v2", "handler.hello", "python2.7", none, "HTTP", none⟩⟩
      [⟨"k8s.io/v1", "Function", ⟨"hello", "default", none, none⟩,
        ⟨"", "code-v1", "handler.hello", "python2.7", none, "HTTP", none⟩⟩]
      true .ok .ok .ok "http" (some "/hello") none none false 0 []).trace :=
  ⟨(ingress_only_after_create_and_poller_start
      ⟨"k8s.io/v1", "Function", ⟨"hello", "default", none, none⟩,
        ⟨"", "code", "handler.hello", "python2.7", none, "HTTP", none⟩⟩
      [] false .ok .ok .ok "http" (some "/hello") none none false 0 []).1
      (by decide),
    (ingress_only_after_create_and_poller_start
      ⟨"k8s.io/v1", "Function", ⟨"hello", "default", none, none⟩,
        ⟨"", "code-v2", "handler.hello", "python2.7", none, "HTTP", none⟩⟩
      [⟨"k8s.io/v1", "Function", ⟨"hello", "default", none, none⟩,
        ⟨"", "code-v1", "handler.hello", "python2.7", none, "HTTP", none⟩⟩]
      true .ok .ok .ok "http" (some "/hello") none none false 0 []).2
      (by decide) (by decide) rfl⟩

/-- C10 counterexample: with an empty events list the default HTTP event is
substituted, yet an ingress rule **is** provisioned when a provider-level
hostname is configured — the root path alone does not prevent ingress
provisioning, refuting the claim's unconditional "no ingress rule is
provisioned". -/
theorem default_event_ingress_counterexample :
    effectiveEvents (some []) = [defaultHttpEvent] ∧
    (deployEvent
      ⟨"k8s.io/v1", "Function", ⟨"hello", "default", none, none⟩,
        ⟨"", "code", "handler.hello", "python2.7", none, "HTTP", none⟩⟩
      [] false .ok .ok .ok defaultHttpEvent.key defaultHttpEvent.path
      (some "apps.example.com") defaultHttpEvent.hostname false 0 []).trace =
      [.listCall, .createCall, .pollerStart, .ingressCall] := by
  exact ⟨rfl, by decide⟩

/-- C10 amended: a function definition with an empty or absent events list
is treated as having the single default HTTP event with path `/`; the built
document then has spec type `HTTP`, and — provided no hostname is
configured at the provider level (the default event itself carries none) —
no ingress rule is provisioned on any reconciliation branch. -/
theorem default_event_amended (fn nsp rt : String) (deps : Option String)
    (fc hdl : String) (d : Option String)
    (lab env : Option (List (String × String))) (mem trig : Option String)
    (funcs : FunctionResource) (existing : List FunctionResource)
    (force : Bool) (createResult updateResult ingressResult : ApiResult)
    (providerHostname : Option String) (verbose : Bool) (requestMoment : Int)
    (ticks : List (List Pod))
    (hph : jsTruthyStr providerHostname = false) :
    effectiveEvents none = [defaultHttpEvent] ∧
    effectiveEvents (some []) = [defaultHttpEvent] ∧
    (∃ doc, getFunctionDescription fn nsp rt deps fc hdl d lab env mem
        defaultHttpEvent.key trig = .ok doc ∧ doc.spec.type = "HTTP") ∧
    .ingressCall ∉ (deployEvent funcs existing force createResult
      updateResult ingressResult defaultHttpEvent.key defaultHttpEvent.path
      providerHostname defaultHttpEvent.hostname verbose requestMoment
      ticks).trace := by
  refine ⟨rfl, rfl, ⟨_, rfl, rfl⟩, ?_⟩
  have hing : addIngressRuleIfNecessary funcs.metadata.name
      defaultHttpEvent.key defaultHttpEvent.path
      (jsOrStr providerHostname defaultHttpEvent.hostname) ingressResult =
      ([], []) := by
    simp [addIngressRuleIfNecessary, jsOrStr, hph, defaultHttpEvent,
      lodashIsEmptyStr]
  by_cases h1 : existingSameFunctionIn funcs existing = true
  · simp [deployEvent, h1]
  · have h1' := bool_eq_false_of_not h1
    by_cases h2 : (existingFunctionIn funcs existing && force) = true
    · cases updateResult <;> simp [deployEvent, h1', h2]
    · have h2' := bool_eq_false_of_not h2
      cases createResult with
      | ok => simp [deployEvent, h1', h2', hing]
      | err code msg =>
        by_cases hc : code = 409 <;> simp [deployEvent, h1', h2', hc]

/-- Witness for C10 amended at a concrete unconfigured provider hostname. -/
theorem default_event_amended_witness :
    effectiveEvents none = [defaultHttpEvent] ∧
    effectiveEvents (some []) = [defaultHttpEvent] ∧
    (∃ doc, getFunctionDescription "hello" "default" "python2.7" none "code"
        "handler.hello" none none none none defaultHttpEvent.key none =
        .ok doc ∧ doc.spec.type = "HTTP") ∧
    .ingressCall ∉ (deployEvent
      ⟨"k8s.io/v1", "Function", ⟨"hello", "default", none, none⟩,
        ⟨"", "code", "handler.hello", "python2.7", none, "HTTP", none⟩⟩
      [] false .ok .ok .ok defaultHttpEvent.key defaultHttpEvent.path none
      defaultHttpEvent.hostname false 0 []).trace :=
  default_event_amended "hello" "default" "python2.7" none "code"
    "handler.hello" none none none none none
    ⟨"k8s.io/v1", "Function", ⟨"hello", "default", none, none⟩,
      ⟨"", "code", "handler.hello", "python2.7", none, "HTTP", none⟩⟩
    [] false .ok .ok .ok none false 0 [] (by decide)

/-- Decomposition of the fused findIndex-and-slice step: the input splits
into a prefix of entries failing the predicate followed by the kept result,
which is either empty (no entry matched) or starts with the first matching
entry. -/
theorem dropUntilTime_spec (p : String → Bool) (l : List String) :
    ∃ pfx sfx, l = pfx ++ sfx ∧ (∀ e ∈ pfx, p e = false) ∧
      (sfx = [] ∨ ∃ e rest, sfx = e :: rest ∧ p e = true) ∧
      dropUntilTime p l = sfx := by
  induction l with
  | nil =>
    refine ⟨[], [], rfl, ?_, Or.inl rfl, rfl⟩
    intro e he
    cases he
  | cons a l ih =>
    by_cases hp : p a = true
    · refine ⟨[], a :: l, rfl, ?_, Or.inr ⟨a, l, rfl, hp⟩, ?_⟩
      · intro e he
        cases he
      · simp [dropUntilTime, hp]
    · obtain ⟨pfx, sfx, heq, hpfx, hsfx, hres⟩ := ih
      refine ⟨a :: pfx, sfx, by rw [List.cons_append, heq], ?_, hsfx, ?_⟩
      · intro e he
        rcases List.mem_cons.mp he with rfl | he'
        · exact bool_eq_false_of_not hp
        · exact hpfx e he'
      · rw [← hres]
        simp [dropUntilTime, hp]

/-- C8: with a start time set, the time filter keeps the first entry whose
embedded timestamp is at or after the resolved instant together with all
following entries (the entries ahead of it all fail the timestamp test),
and when no entry passes the test the result is the empty string, not the
full input.  `count` and `filter` are arbitrary, applying before the time
window as in the source. -/
theorem filterLogs_time_window (extract : String → Option Int)
    (matchesPat : String → String → Bool) (logs : String)
    (count : Option Nat) (filtOpt : Option String) (sm : Int) :
    ∃ pfx sfx,
      patternStage matchesPat filtOpt (countStage count (splitCompact logs)) =
        pfx ++ sfx ∧
      (∀ e ∈ pfx, timeOk extract sm e = false) ∧
      ((sfx = [] ∧
          filterLogs extract matchesPat logs ⟨some sm, count, filtOpt⟩ = "") ∨
        (∃ e rest, sfx = e :: rest ∧ timeOk extract sm e = true ∧
          filterLogs extract matchesPat logs ⟨some sm, count, filtOpt⟩ =
            "\n".intercalate sfx)) := by
  obtain ⟨pfx, sfx, heq, hpfx, hsfx, hres⟩ :=
    dropUntilTime_spec (timeOk extract sm)
      (patternStage matchesPat filtOpt (countStage count (splitCompact logs)))
  refine ⟨pfx, sfx, heq, hpfx, ?_⟩
  have hfl : filterLogs extract matchesPat logs ⟨some sm, count, filtOpt⟩ =
      "\n".intercalate sfx := by
    simp only [filterLogs, timeStage]
    rw [hres]
  rcases hsfx with rfl | ⟨e, rest, hcons, hp⟩
  · exact Or.inl ⟨rfl, hfl⟩
  · exact Or.inr ⟨e, rest, hcons, hp, hfl⟩

/-- Witness for C8: two entries, neither carrying a timestamp, against a
resolved start instant. -/
theorem filterLogs_time_window_witness :
    ∃ pfx sfx,
      patternStage (fun _ _ => true) none
          (countStage none (splitCompact "a\nb")) = pfx ++ sfx ∧
      (∀ e ∈ pfx, timeOk (fun _ => none) 0 e = false) ∧
      ((sfx = [] ∧
          filterLogs (fun _ => none) (fun _ _ => true) "a\nb"
            ⟨some 0, none, none⟩ = "") ∨
        (∃ e rest, sfx = e :: rest ∧ timeOk (fun _ => none) 0 e = true ∧
          filterLogs (fun _ => none) (fun _ _ => true) "a\nb"
            ⟨some 0, none, none⟩ = "\n".intercalate sfx)) :=
  filterLogs_time_window (fun _ => none) (fun _ _ => true) "a\nb" none none 0

/-- C9: with all options unset, `filterLogs` returns the input text
unchanged except for the removal of empty lines, and each of the count,
pattern and time filters is the identity when its option is unset. -/
theorem filterLogs_no_options (extract : String → Option Int)
    (matchesPat : String → String → Bool) (logs : String) :
    filterLogs extract matchesPat logs ⟨none, none, none⟩ =
      specRemoveBlankLines logs ∧
    (∀ entries, countStage none entries = entries) ∧
    (∀ entries, patternStage matchesPat none entries = entries) ∧
    (∀ entries, timeStage extract none entries = entries) := by
  refine ⟨?_, fun _ => rfl, fun _ => rfl, fun _ => rfl⟩
  simp only [filterLogs, countStage, patternStage, timeStage, splitCompact,
    specRemoveBlankLines]
  congr 1
  apply List.filter_congr
  intro x _
  cases hx : x.isEmpty with
  | true => simp [(String.isEmpty_iff x).mp hx]
  | false =>
    have : x ≠ "" := fun h => by
      rw [h] at hx
      cases hx
    simp [this]

/-- Witness for C9 at a concrete three-line text with an embedded blank. -/
theorem filterLogs_no_options_witness :
    filterLogs (fun _ => none) (fun _ _ => false) "a\n\nb"
      ⟨none, none, none⟩ = specRemoveBlankLines "a\n\nb" ∧
    (∀ entries, countStage none entries = entries) ∧
    (∀ entries, patternStage (fun _ _ => false) none entries = entries) ∧
    (∀ entries, timeStage (fun _ => none) none entries = entries) :=
  filterLogs_no_options (fun _ => none) (fun _ _ => false) "a\n\nb"
